import Mathlib

/-!
Shallow embedding of `src/phira-mp-client/src/lib.rs` (the phira-mp client
core): the RPC facade (`Client::rcall` and the ten typed operations), the
event dispatcher (`process` and its inner `cb` helper), the heartbeat loop
spawned in `Client::new`, the session state cache (`State.room`) and the
inbound queues, together with the blocking accessors.

Modelling conventions:
- Durations are modelled as `Nat` (an abstract unit; only identity of the
  recorded value matters to the properties below).
- Types from the sibling crate `phira-mp-common` (`Uuid`, `RoomState`,
  `Message`, `TouchFrame`, `JudgeEvent`) are not under `src/`; they are
  modelled as wrappers around `Nat`, faithful to the spec, which treats
  them as externally defined values carried around unchanged.
- A `tokio::sync::oneshot::Sender` stored in a callback slot is modelled by
  `Sender`, which records the one bit the client logic depends on: whether
  the matching receiver is still alive (a send on a oneshot channel whose
  receiver was dropped fails, and `process::cb` ignores that failure).
- A Rust panic (an `Option::unwrap` of `None`) is modelled by returning
  `none` from the function in question; a normal return is `some _`.
- The asynchronous environment is passed in explicitly: whether the
  outbound `stream.send` succeeded (`sendOk : Bool`) and what the awaited
  oneshot receiver observed before the 7-second call timeout
  (`CallOutcome`).
-/

namespace PhiraMp

/-- Modelled from the spec: `uuid::Uuid`, an opaque session identifier
(the crate is external; only identity matters). -/
structure Uuid where
  val : Nat
deriving DecidableEq, Repr

/-- Modelled from the spec: `phira_mp_common::RoomState`, the externally
defined session lifecycle phase, carrying a default value
(`RoomState::default()`); modelled as an opaque wrapper. -/
structure RoomState where
  phase : Nat
deriving DecidableEq, Repr

/-- The default phase, standing for `RoomState::default()`. -/
def RoomState.defaultState : RoomState := ⟨0⟩

/-- Modelled from the spec: `phira_mp_common::Message`, an opaque pushed
chat/system message. -/
structure Message where
  val : Nat
deriving DecidableEq, Repr

/-- Modelled from the spec: `phira_mp_common::TouchFrame`, an opaque pushed
input frame. -/
structure TouchFrame where
  val : Nat
deriving DecidableEq, Repr

/-- Modelled from the spec: `phira_mp_common::JudgeEvent`, an opaque pushed
scoring judgment. -/
structure JudgeEvent where
  val : Nat
deriving DecidableEq, Repr

/-- `phira_mp_common::ClientRoomState` as used by the client (lib.rs:32,
217-222, 231-236): room id, phase, host flag, ready flag. -/
structure ClientRoomState where
  id : Uuid
  state : RoomState
  is_host : Bool
  is_ready : Bool
deriving DecidableEq, Repr

/-- A `oneshot::Sender` installed in a callback slot (lib.rs:23-24).
`receiverAlive` is true while the matching `rx` end still awaits in
`rcall`; it is false once the caller timed out and dropped `rx`
(a `send` then fails, and the failure is discarded by `process::cb`). -/
structure Sender where
  receiverAlive : Bool
deriving DecidableEq, Repr

/-- The shared `State` of lib.rs:28-48: last measured delay, the room
snapshot, the ten per-operation callback slots (each
`Mutex<Option<oneshot::Sender<..>>>`), and the three inbound queues. -/
structure State where
  delay : Option Nat
  room : Option ClientRoomState
  cb_authorize : Option Sender
  cb_chat : Option Sender
  cb_create_room : Option Sender
  cb_join_room : Option Sender
  cb_leave_room : Option Sender
  cb_select_chart : Option Sender
  cb_request_start : Option Sender
  cb_ready : Option Sender
  cb_cancel_ready : Option Sender
  cb_played : Option Sender
  touch_frames : List TouchFrame
  judges : List JudgeEvent
  messages : List Message
deriving DecidableEq, Repr

/-- The inbound event set `phira_mp_common::ServerCommand`, as consumed by
`process` (lib.rs:314-374). Per-operation result events carry
`Result<T, String>`, modelled as `Except String T`. -/
inductive ServerCommand where
  | Pong
  | Authorize (res : Except String (Option ClientRoomState))
  | Chat (res : Except String Unit)
  | Touches (frames : List TouchFrame)
  | Judges (judges : List JudgeEvent)
  | Message (msg : PhiraMp.Message)
  | ChangeState (room : RoomState)
  | ChangeHost (me_is_host : Bool)
  | CreateRoom (res : Except String Uuid)
  | JoinRoom (res : Except String RoomState)
  | LeaveRoom (res : Except String Unit)
  | SelectChart (res : Except String Unit)
  | RequestStart (res : Except String Unit)
  | Ready (res : Except String Unit)
  | CancelReady (res : Except String Unit)
  | Played (res : Except String Unit)
  | GameEnd

/-- What processing one inbound event did besides mutating `State`:
nothing, a `ping_notify.notify_one()`, or an attempted fulfillment of a
taken sender (`delivered live`: `live` is true iff the awaiting receiver
was still there to get the payload). -/
inductive DispatchEffect where
  | silent
  | pingNotify
  | delivered (live : Bool)
deriving DecidableEq, Repr

/-- The inner helper `cb` of `process` (lib.rs:315-317):
`cb.lock().await.take().unwrap().send(res)`. `take()` empties the slot;
`unwrap()` panics (`none` here) when no sender was installed; the result
of `send` is discarded (`let _ =`), so a dead receiver raises no error. -/
def cbStep (slot : Option Sender) : Option (Option Sender × Bool) :=
  match slot with
  | none => none
  | some tx => some (none, tx.receiverAlive)

/-- The event dispatcher `process` (lib.rs:314-374), one event at a time.
Returns `none` when the Rust code would panic: `cb`'s `unwrap` on an empty
slot, or the `as_mut().unwrap()` on an absent room snapshot in
`ChangeState`/`ChangeHost`. -/
def process (s : State) (cmd : ServerCommand) : Option (State × DispatchEffect) :=
  match cmd with
  | ServerCommand.Pong => some (s, DispatchEffect.pingNotify)
  | ServerCommand.Authorize _ =>
      match cbStep s.cb_authorize with
      | none => none
      | some (slot, live) => some ({ s with cb_authorize := slot }, DispatchEffect.delivered live)
  | ServerCommand.Chat _ =>
      match cbStep s.cb_chat with
      | none => none
      | some (slot, live) => some ({ s with cb_chat := slot }, DispatchEffect.delivered live)
  | ServerCommand.Touches frames =>
      some ({ s with touch_frames := s.touch_frames ++ frames }, DispatchEffect.silent)
  | ServerCommand.Judges js =>
      some ({ s with judges := s.judges ++ js }, DispatchEffect.silent)
  | ServerCommand.Message msg =>
      some ({ s with messages := s.messages ++ [msg] }, DispatchEffect.silent)
  | ServerCommand.ChangeState room =>
      match s.room with
      | none => none
      | some r => some ({ s with room := some { r with state := room } }, DispatchEffect.silent)
  | ServerCommand.ChangeHost b =>
      match s.room with
      | none => none
      | some r => some ({ s with room := some { r with is_host := b } }, DispatchEffect.silent)
  | ServerCommand.CreateRoom _ =>
      match cbStep s.cb_create_room with
      | none => none
      | some (slot, live) => some ({ s with cb_create_room := slot }, DispatchEffect.delivered live)
  | ServerCommand.JoinRoom _ =>
      match cbStep s.cb_join_room with
      | none => none
      | some (slot, live) => some ({ s with cb_join_room := slot }, DispatchEffect.delivered live)
  | ServerCommand.LeaveRoom _ =>
      match cbStep s.cb_leave_room with
      | none => none
      | some (slot, live) => some ({ s with cb_leave_room := slot }, DispatchEffect.delivered live)
  | ServerCommand.SelectChart _ =>
      match cbStep s.cb_select_chart with
      | none => none
      | some (slot, live) => some ({ s with cb_select_chart := slot }, DispatchEffect.delivered live)
  | ServerCommand.RequestStart _ =>
      match cbStep s.cb_request_start with
      | none => none
      | some (slot, live) => some ({ s with cb_request_start := slot }, DispatchEffect.delivered live)
  | ServerCommand.Ready _ =>
      match cbStep s.cb_ready with
      | none => none
      | some (slot, live) => some ({ s with cb_ready := slot }, DispatchEffect.delivered live)
  | ServerCommand.CancelReady _ =>
      match cbStep s.cb_cancel_ready with
      | none => none
      | some (slot, live) => some ({ s with cb_cancel_ready := slot }, DispatchEffect.delivered live)
  | ServerCommand.Played _ =>
      match cbStep s.cb_played with
      | none => none
      | some (slot, live) => some ({ s with cb_played := slot }, DispatchEffect.delivered live)
  | ServerCommand.GameEnd => some (s, DispatchEffect.silent)

/-- Fold `process` over a list of inbound events in arrival order,
propagating a panic. -/
def processAll (s : State) : List ServerCommand → Option State
  | [] => some s
  | c :: cs =>
      match process s c with
      | none => none
      | some (s1, _) => processAll s1 cs

/-- `pub const TIMEOUT: Duration = Duration::from_secs(7)` (lib.rs:26),
in seconds. -/
def TIMEOUT : Nat := 7

/-- The error taxonomy surfaced by `rcall` and the operations built on it:
transport (the outbound `stream.send` failed), timeout (`time::timeout`
elapsed), remote (the server sent an error string, re-raised via
`Error::msg`). -/
inductive RpcError where
  | transport
  | timeout
  | remote (msg : String)
deriving DecidableEq, Repr

/-- What the installed oneshot receiver observed before the call timeout:
a fulfillment (the server result, ok or remote-error string), or nothing
within `TIMEOUT` seconds. -/
inductive CallOutcome (T : Type) where
  | fulfilled (res : Except String T)
  | timedOut

/-- `Client::rcall` (lib.rs:177-185) joined with the dispatcher's handling
of its slot:
1. `self.stream.send(payload).await?` — on failure, return at once with a
   transport error; the slot is never touched.
2. install a fresh live sender (overwriting `slot0`), then await.
3. if the dispatcher fulfilled the slot, it consumed the sender via
   `take()` (slot afterwards empty); an ok payload is returned, an error
   string becomes a remote error.
4. on timeout, fail with the timeout error; the sender stays installed but
   its receiver is dropped (orphaned: `receiverAlive := false`).
Returns the call result and the slot content after the call. -/
def rcall {T : Type} (sendOk : Bool) (outcome : CallOutcome T)
    (slot0 : Option Sender) : Except RpcError T × Option Sender :=
  if sendOk then
    match outcome with
    | CallOutcome.fulfilled (Except.ok v) => (Except.ok v, none)
    | CallOutcome.fulfilled (Except.error m) => (Except.error (RpcError.remote m), none)
    | CallOutcome.timedOut => (Except.error RpcError.timeout, some { receiverAlive := false })
  else
    (Except.error RpcError.transport, slot0)

/-- `Client::authorize` (lib.rs:188-199): rcall on `cb_authorize`; on
success replace the room snapshot with the returned one (possibly none). -/
def authorize (sendOk : Bool) (outcome : CallOutcome (Option ClientRoomState))
    (s : State) : Except RpcError Unit × State :=
  match rcall sendOk outcome s.cb_authorize with
  | (Except.ok room, slot) => (Except.ok (), { s with cb_authorize := slot, room := room })
  | (Except.error e, slot) => (Except.error e, { s with cb_authorize := slot })

/-- `Client::chat` (lib.rs:202-210): rcall on `cb_chat`; no state mutation
beyond the slot. -/
def chat (sendOk : Bool) (outcome : CallOutcome Unit) (s : State) :
    Except RpcError Unit × State :=
  match rcall sendOk outcome s.cb_chat with
  | (r, slot) => (r, { s with cb_chat := slot })

/-- `Client::create_room` (lib.rs:213-224): rcall on `cb_create_room`; on
success install a fresh snapshot with the returned id, the default phase,
`is_host = true`, `is_ready = false`, and return the id. -/
def create_room (sendOk : Bool) (outcome : CallOutcome Uuid) (s : State) :
    Except RpcError Uuid × State :=
  match rcall sendOk outcome s.cb_create_room with
  | (Except.ok id, slot) =>
      (Except.ok id,
        { s with cb_create_room := slot,
                 room := some { id := id, state := RoomState.defaultState,
                                is_host := true, is_ready := false } })
  | (Except.error e, slot) => (Except.error e, { s with cb_create_room := slot })

/-- `Client::join_room` (lib.rs:227-238): rcall on `cb_join_room`; on
success install a snapshot with the requested id, the server-supplied
phase, `is_host = false`, `is_ready = false`. -/
def join_room (id : Uuid) (sendOk : Bool) (outcome : CallOutcome RoomState)
    (s : State) : Except RpcError Unit × State :=
  match rcall sendOk outcome s.cb_join_room with
  | (Except.ok st, slot) =>
      (Except.ok (),
        { s with cb_join_room := slot,
                 room := some { id := id, state := st,
                                is_host := false, is_ready := false } })
  | (Except.error e, slot) => (Except.error e, { s with cb_join_room := slot })

/-- `Client::leave_room` (lib.rs:241-246): rcall on `cb_leave_room`; on
success clear the room snapshot. -/
def leave_room (sendOk : Bool) (outcome : CallOutcome Unit) (s : State) :
    Except RpcError Unit × State :=
  match rcall sendOk outcome s.cb_leave_room with
  | (Except.ok _, slot) => (Except.ok (), { s with cb_leave_room := slot, room := none })
  | (Except.error e, slot) => (Except.error e, { s with cb_leave_room := slot })

/-- `Client::select_chart` (lib.rs:249-255): rcall on `cb_select_chart`;
no state mutation beyond the slot. -/
def select_chart (sendOk : Bool) (outcome : CallOutcome Unit) (s : State) :
    Except RpcError Unit × State :=
  match rcall sendOk outcome s.cb_select_chart with
  | (r, slot) => (r, { s with cb_select_chart := slot })

/-- `Client::request_start` (lib.rs:258-263): rcall on `cb_request_start`;
on success `room.write().await.as_mut().unwrap().is_ready = true` — the
unwrap panics (`none` here) when no room snapshot is tracked. -/
def request_start (sendOk : Bool) (outcome : CallOutcome Unit) (s : State) :
    Option (Except RpcError Unit × State) :=
  match rcall sendOk outcome s.cb_request_start with
  | (Except.ok _, slot) =>
      match s.room with
      | none => none
      | some r =>
          some (Except.ok (),
            { s with cb_request_start := slot, room := some { r with is_ready := true } })
  | (Except.error e, slot) => some (Except.error e, { s with cb_request_start := slot })

/-- `Client::ready` (lib.rs:266-271): rcall on `cb_ready`; on success set
`is_ready = true` through `as_mut().unwrap()` (panics — `none` — when no
room snapshot is tracked). -/
def ready (sendOk : Bool) (outcome : CallOutcome Unit) (s : State) :
    Option (Except RpcError Unit × State) :=
  match rcall sendOk outcome s.cb_ready with
  | (Except.ok _, slot) =>
      match s.room with
      | none => none
      | some r =>
          some (Except.ok (),
            { s with cb_ready := slot, room := some { r with is_ready := true } })
  | (Except.error e, slot) => some (Except.error e, { s with cb_ready := slot })

/-- `Client::cancel_ready` (lib.rs:274-279): rcall on `cb_cancel_ready`;
on success set `is_ready = false` through `as_mut().unwrap()` (panics —
`none` — when no room snapshot is tracked). -/
def cancel_ready (sendOk : Bool) (outcome : CallOutcome Unit) (s : State) :
    Option (Except RpcError Unit × State) :=
  match rcall sendOk outcome s.cb_cancel_ready with
  | (Except.ok _, slot) =>
      match s.room with
      | none => none
      | some r =>
          some (Except.ok (),
            { s with cb_cancel_ready := slot, room := some { r with is_ready := false } })
  | (Except.error e, slot) => some (Except.error e, { s with cb_cancel_ready := slot })

/-- `Client::played` (lib.rs:282-285): rcall on `cb_played`; no state
mutation beyond the slot. -/
def played (sendOk : Bool) (outcome : CallOutcome Unit) (s : State) :
    Except RpcError Unit × State :=
  match rcall sendOk outcome s.cb_played with
  | (r, slot) => (r, { s with cb_played := slot })

/-- `Client::blocking_take_messages` (lib.rs:134-136):
`messages.blocking_lock().drain(..).collect()` — atomically return the
whole accumulated message list and leave the queue empty. -/
def blocking_take_messages (s : State) : List Message × State :=
  (s.messages, { s with messages := [] })

/-- `Client::blocking_room_id` (lib.rs:138-140). -/
def blocking_room_id (s : State) : Option Uuid :=
  Option.map (fun it => it.id) s.room

/-- `Client::blocking_room_state` (lib.rs:142-144). -/
def blocking_room_state (s : State) : Option RoomState :=
  Option.map (fun it => it.state) s.room

/-- `Client::blocking_is_host` (lib.rs:146-152). -/
def blocking_is_host (s : State) : Option Bool :=
  Option.map (fun it => it.is_host) s.room

/-- `Client::blocking_is_ready` (lib.rs:154-160). -/
def blocking_is_ready (s : State) : Option Bool :=
  Option.map (fun it => it.is_ready) s.room

/-- The part of the heartbeat task state read by callers: the
`ping_fail_count: AtomicU8` (held as its `Nat` value, always `< 256`) and
the last recorded delay (`State.delay`). -/
structure HeartbeatState where
  failCount : Nat
  delay : Option Nat
deriving DecidableEq, Repr

/-- What one heartbeat tick observed: the `stream.send(Ping)` failed, the
acknowledgment wait timed out, or the acknowledgment arrived. -/
inductive TickOutcome where
  | sendFailed
  | ackTimeout
  | ack
deriving DecidableEq, Repr

/-- One iteration of the heartbeat loop spawned in `Client::new`
(lib.rs:101-121). On a send failure the error is only logged; on an
acknowledgment timeout `ping_fail_count.fetch_add(1, ..)` — an `AtomicU8`
addition, wrapping at 256; on acknowledgment `ping_fail_count.store(0, ..)`.
In every case the loop then records `start.elapsed()` as the new delay
(lib.rs:117-118 sit after the if/else, outside all three branches).
`elapsed` is that measured duration. -/
def heartbeatTick (h : HeartbeatState) (o : TickOutcome) (elapsed : Nat) :
    HeartbeatState :=
  let fc :=
    match o with
    | TickOutcome.sendFailed => h.failCount
    | TickOutcome.ackTimeout => (h.failCount + 1) % 256
    | TickOutcome.ack => 0
  { failCount := fc, delay := some elapsed }

/-- `n` consecutive heartbeat ticks whose acknowledgment wait timed out
(the elapsed time recorded on such a tick is about the 10 s
acknowledgment timeout; its value is irrelevant to the counter, so it is
passed as 10 here). -/
def missedN : Nat → HeartbeatState → HeartbeatState
  | 0, h => h
  | n + 1, h => missedN n (heartbeatTick h TickOutcome.ackTimeout 10)

/-- The ten request kinds with a callback slot (§4.1, lib.rs:34-43). -/
inductive OpKind where
  | authorize
  | chat
  | createRoom
  | joinRoom
  | leaveRoom
  | selectChart
  | requestStart
  | ready
  | cancelReady
  | played
deriving DecidableEq, Repr

/-- The slot of the given kind in the callback table. -/
def slotOf (s : State) : OpKind → Option Sender
  | OpKind.authorize => s.cb_authorize
  | OpKind.chat => s.cb_chat
  | OpKind.createRoom => s.cb_create_room
  | OpKind.joinRoom => s.cb_join_room
  | OpKind.leaveRoom => s.cb_leave_room
  | OpKind.selectChart => s.cb_select_chart
  | OpKind.requestStart => s.cb_request_start
  | OpKind.ready => s.cb_ready
  | OpKind.cancelReady => s.cb_cancel_ready
  | OpKind.played => s.cb_played

/-- Overwrite the slot of the given kind. -/
def setSlot (s : State) (k : OpKind) (v : Option Sender) : State :=
  match k with
  | OpKind.authorize => { s with cb_authorize := v }
  | OpKind.chat => { s with cb_chat := v }
  | OpKind.createRoom => { s with cb_create_room := v }
  | OpKind.joinRoom => { s with cb_join_room := v }
  | OpKind.leaveRoom => { s with cb_leave_room := v }
  | OpKind.selectChart => { s with cb_select_chart := v }
  | OpKind.requestStart => { s with cb_request_start := v }
  | OpKind.ready => { s with cb_ready := v }
  | OpKind.cancelReady => { s with cb_cancel_ready := v }
  | OpKind.played => { s with cb_played := v }

/-- The payload type of the per-operation result event for each kind. -/
def ResultPayload : OpKind → Type
  | OpKind.authorize => Except String (Option ClientRoomState)
  | OpKind.chat => Except String Unit
  | OpKind.createRoom => Except String Uuid
  | OpKind.joinRoom => Except String RoomState
  | OpKind.leaveRoom => Except String Unit
  | OpKind.selectChart => Except String Unit
  | OpKind.requestStart => Except String Unit
  | OpKind.ready => Except String Unit
  | OpKind.cancelReady => Except String Unit
  | OpKind.played => Except String Unit

/-- The per-operation result event of the given kind with the given
payload. -/
def resultEvent : (k : OpKind) → ResultPayload k → ServerCommand
  | OpKind.authorize, r => ServerCommand.Authorize r
  | OpKind.chat, r => ServerCommand.Chat r
  | OpKind.createRoom, r => ServerCommand.CreateRoom r
  | OpKind.joinRoom, r => ServerCommand.JoinRoom r
  | OpKind.leaveRoom, r => ServerCommand.LeaveRoom r
  | OpKind.selectChart, r => ServerCommand.SelectChart r
  | OpKind.requestStart, r => ServerCommand.RequestStart r
  | OpKind.ready, r => ServerCommand.Ready r
  | OpKind.cancelReady, r => ServerCommand.CancelReady r
  | OpKind.played, r => ServerCommand.Played r

/-- A client state with no slot installed, no room, empty queues (the
state right after `Client::new`, lib.rs:63-83). -/
def emptyState : State :=
  { delay := none, room := none,
    cb_authorize := none, cb_chat := none, cb_create_room := none,
    cb_join_room := none, cb_leave_room := none, cb_select_chart := none,
    cb_request_start := none, cb_ready := none, cb_cancel_ready := none,
    cb_played := none,
    touch_frames := [], judges := [], messages := [] }

/-- A concrete room id for witness states. -/
def u0 : Uuid := ⟨37⟩

/-- A concrete room snapshot for witness states. -/
def rm0 : ClientRoomState :=
  { id := u0, state := RoomState.defaultState, is_host := false, is_ready := false }

/-- A state with a live sender installed for CreateRoom. -/
def s0 : State := { emptyState with cb_create_room := some { receiverAlive := true } }

/-- A state tracking the room snapshot `rm0`. -/
def sRoom : State := { emptyState with room := some rm0 }

theorem cbStep_none : cbStep none = none := rfl

theorem cbStep_some (tx : Sender) : cbStep (some tx) = some (none, tx.receiverAlive) := rfl

/-- C1 (counterexample): a CreateRoom result event delivered while no
sender is installed for CreateRoom (the call was never issued) is not
silently discarded — `process::cb` unwraps the empty slot and panics
(modelled by `none`), contrary to the claim that the event is discarded
with no error raised. -/
theorem C1_counterexample :
    process emptyState (ServerCommand.CreateRoom (Except.ok u0)) = none := rfl

/-- C1 (amended): for every per-operation result event, if a sender is
installed in the matching slot the dispatcher takes it and attempts the
fulfillment — delivering to the caller exactly when the receiver is still
alive, and silently dropping the payload when the caller already timed
out — and the slot is left empty; but if no sender is installed (the call
was never issued, or its slot was already consumed) the dispatcher panics
on the unwrap instead of discarding the event. -/
theorem C1_dispatch_result_event (s : State) (k : OpKind) (res : ResultPayload k) :
    (slotOf s k = none → process s (resultEvent k res) = none) ∧
    (∀ tx : Sender, slotOf s k = some tx →
      process s (resultEvent k res) =
        some (setSlot s k none, DispatchEffect.delivered tx.receiverAlive)) := by
  cases k <;>
    exact ⟨fun h => by simp [slotOf] at h; simp [process, resultEvent, cbStep, h],
           fun tx h => by
             simp [slotOf] at h
             simp [process, resultEvent, cbStep, h, setSlot]⟩

/-- C1 witness: in the state `s0`, whose CreateRoom slot holds a live
sender, the CreateRoom result event is delivered and the slot emptied. -/
theorem C1_witness :
    process s0 (resultEvent OpKind.createRoom (Except.ok u0)) =
      some (setSlot s0 OpKind.createRoom none, DispatchEffect.delivered true) :=
  (C1_dispatch_result_event s0 OpKind.createRoom (Except.ok u0)).2
    { receiverAlive := true } rfl

/-- C2: the call timeout is 7 seconds; an `rcall` whose outcome is that no
fulfillment arrived within it fails with the Timeout error and leaves its
sender behind orphaned (receiver dropped), so that a later matching
response makes the dispatcher helper take that sender without a panic and
without delivering anything to the caller: no resurrection, no crash, no
re-fulfillment. -/
theorem C2_timeout_retires_slot (T : Type) (slot0 : Option Sender) :
    TIMEOUT = 7 ∧
    (rcall (T := T) true CallOutcome.timedOut slot0).1 = Except.error RpcError.timeout ∧
    cbStep (rcall (T := T) true CallOutcome.timedOut slot0).2 = some (none, false) :=
  ⟨rfl, rfl, rfl⟩

/-- C3: for every operation of the RPC facade, a failed outbound send
makes the call fail at once with the Transport error and leaves the whole
client state — callback slots and room snapshot included — exactly as it
was: no slot is installed and the session state cache is unchanged. -/
theorem C3_transport_failure (s : State)
    (o1 : CallOutcome (Option ClientRoomState)) (o2 : CallOutcome Unit)
    (o3 : CallOutcome Uuid) (i : Uuid) (o4 : CallOutcome RoomState)
    (o5 : CallOutcome Unit) (o6 : CallOutcome Unit) (o7 : CallOutcome Unit)
    (o8 : CallOutcome Unit) (o9 : CallOutcome Unit) (o10 : CallOutcome Unit) :
    authorize false o1 s = (Except.error RpcError.transport, s) ∧
    chat false o2 s = (Except.error RpcError.transport, s) ∧
    create_room false o3 s = (Except.error RpcError.transport, s) ∧
    join_room i false o4 s = (Except.error RpcError.transport, s) ∧
    leave_room false o5 s = (Except.error RpcError.transport, s) ∧
    select_chart false o6 s = (Except.error RpcError.transport, s) ∧
    request_start false o7 s = some (Except.error RpcError.transport, s) ∧
    ready false o8 s = some (Except.error RpcError.transport, s) ∧
    cancel_ready false o9 s = some (Except.error RpcError.transport, s) ∧
    played false o10 s = (Except.error RpcError.transport, s) := by
  refine ⟨?_, ?_, ?_, ?_, ?_, ?_, ?_, ?_, ?_, ?_⟩ <;>
    simp [authorize, chat, create_room, join_room, leave_room, select_chart,
      request_start, ready, cancel_ready, played, rcall]

theorem missedN_failCount (n : Nat) : ∀ h : HeartbeatState, h.failCount < 256 →
    (missedN n h).failCount = (h.failCount + n) % 256 := by
  induction n with
  | zero =>
      intro h hl
      simpa [missedN] using (Nat.mod_eq_of_lt hl).symm
  | succ n ih =>
      intro h hl
      rw [missedN, ih _ (Nat.mod_lt _ (by norm_num))]
      simp only [heartbeatTick]
      rw [Nat.mod_add_mod]
      congr 1
      omega

/-- C4 (counterexample): starting from a zero counter, after 256
consecutive missed heartbeat acknowledgments the counter does not read
256 — the `AtomicU8::fetch_add` wrapped around and it reads 0. -/
theorem C4_counterexample :
    (missedN 256 { failCount := 0, delay := none }).failCount ≠ 256 := by
  rw [missedN_failCount 256 _ (by norm_num)]
  norm_num

/-- C4 (amended): after N consecutive missed heartbeat acknowledgments
the consecutive-failure counter reads N mod 256 (it is an 8-bit counter
incremented with a wrapping `fetch_add`; for N ≤ 255 that is exactly N),
and one successful heartbeat round stores 0 regardless of the prior
count. -/
theorem C4_failure_counter (n : Nat) (d : Option Nat) (h : HeartbeatState) (e : Nat) :
    (missedN n { failCount := 0, delay := d }).failCount = n % 256 ∧
    (heartbeatTick h TickOutcome.ack e).failCount = 0 := by
  refine ⟨?_, rfl⟩
  rw [missedN_failCount n _ (by norm_num)]
  simp

/-- C5 (counterexample): a heartbeat tick whose acknowledgment wait timed
out does not leave the last-measured delay unchanged — with a prior delay
of 5 the tick overwrites it with the elapsed time of the failed round
(here 10). -/
theorem C5_counterexample :
    (heartbeatTick { failCount := 0, delay := some 5 } TickOutcome.ackTimeout 10).delay
      ≠ some 5 := by decide

/-- C5 (amended): on a heartbeat tick whose acknowledgment wait times
out, the consecutive-failure counter is incremented (wrapping at 256) and
the last-measured delay is overwritten with the elapsed time of the
failed round — the loop records `start.elapsed()` unconditionally after
the branch, so the timeout path updates the delay too. -/
theorem C5_timeout_tick (h : HeartbeatState) (e : Nat) :
    (heartbeatTick h TickOutcome.ackTimeout e).failCount = (h.failCount + 1) % 256 ∧
    (heartbeatTick h TickOutcome.ackTimeout e).delay = some e :=
  ⟨rfl, rfl⟩

/-- C6: a successful CreateRoom call returns the server-assigned id and
installs a snapshot on which the accessors read `is_host = true`,
`is_ready = false`, the default phase, and an id equal to the value the
call returned. -/
theorem C6_create_room (s : State) (i : Uuid) :
    (create_room true (CallOutcome.fulfilled (Except.ok i)) s).1 = Except.ok i ∧
    blocking_is_host (create_room true (CallOutcome.fulfilled (Except.ok i)) s).2 = some true ∧
    blocking_is_ready (create_room true (CallOutcome.fulfilled (Except.ok i)) s).2 = some false ∧
    blocking_room_state (create_room true (CallOutcome.fulfilled (Except.ok i)) s).2 =
      some RoomState.defaultState ∧
    blocking_room_id (create_room true (CallOutcome.fulfilled (Except.ok i)) s).2 = some i :=
  ⟨rfl, rfl, rfl, rfl, rfl⟩

/-- C7: when a room snapshot is tracked, a successful Ready call makes
`is_ready` read true, and a subsequent successful CancelReady makes it
read false — both transitions are applied by the calls themselves, with
no push event involved (`process` is nowhere in the chain). -/
theorem C7_ready_cancel (s : State) (rm : ClientRoomState) (h : s.room = some rm) :
    ∃ s1, ready true (CallOutcome.fulfilled (Except.ok ())) s = some (Except.ok (), s1) ∧
      blocking_is_ready s1 = some true ∧
      ∃ s2, cancel_ready true (CallOutcome.fulfilled (Except.ok ())) s1 =
          some (Except.ok (), s2) ∧
        blocking_is_ready s2 = some false := by
  refine ⟨{ s with cb_ready := none, room := some { rm with is_ready := true } },
    ?_, rfl,
    { s with cb_ready := none, cb_cancel_ready := none,
             room := some { rm with is_ready := false } }, ?_, rfl⟩
  · simp [ready, rcall, h]
  · simp [cancel_ready, rcall]

/-- C7 witness: in the concrete state `sRoom`, Ready then CancelReady
drive `is_ready` to true then false. -/
theorem C7_witness :
    ∃ s1, ready true (CallOutcome.fulfilled (Except.ok ())) sRoom = some (Except.ok (), s1) ∧
      blocking_is_ready s1 = some true ∧
      ∃ s2, cancel_ready true (CallOutcome.fulfilled (Except.ok ())) s1 =
          some (Except.ok (), s2) ∧
        blocking_is_ready s2 = some false :=
  C7_ready_cancel sRoom rm0 rfl

/-- C8: a successful LeaveRoom call clears the room snapshot, after which
every room accessor — id, phase, host flag, ready flag — reads absent
(`none`). -/
theorem C8_leave_room (s : State) :
    (leave_room true (CallOutcome.fulfilled (Except.ok ())) s).1 = Except.ok () ∧
    blocking_room_id (leave_room true (CallOutcome.fulfilled (Except.ok ())) s).2 = none ∧
    blocking_room_state (leave_room true (CallOutcome.fulfilled (Except.ok ())) s).2 = none ∧
    blocking_is_host (leave_room true (CallOutcome.fulfilled (Except.ok ())) s).2 = none ∧
    blocking_is_ready (leave_room true (CallOutcome.fulfilled (Except.ok ())) s).2 = none :=
  ⟨rfl, rfl, rfl, rfl, rfl⟩

theorem processAll_messages (ms : List Message) :
    ∀ s : State, processAll s (ms.map ServerCommand.Message) =
      some { s with messages := s.messages ++ ms } := by
  induction ms with
  | nil => intro s; simp [processAll]
  | cons m ms ih =>
      intro s
      rw [List.map_cons]
      show processAll { s with messages := s.messages ++ [m] }
        (ms.map ServerCommand.Message) = _
      rw [ih]
      simp

/-- C9: after any sequence of pushed message events is dispatched on top
of any prior contents, a drain of the message queue returns the full
accumulated contents in arrival order, and an immediate re-drain returns
the empty list — the contents are handed out exactly once. -/
theorem C9_message_queue_drain (s : State) (ms : List Message) :
    ∃ s1, processAll s (ms.map ServerCommand.Message) = some s1 ∧
      (blocking_take_messages s1).1 = s.messages ++ ms ∧
      (blocking_take_messages (blocking_take_messages s1).2).1 = [] :=
  ⟨{ s with messages := s.messages ++ ms }, processAll_messages ms s, rfl, rfl⟩

/-- C10: if a Ready, RequestStart, or CancelReady call resolves
successfully while no room snapshot is tracked, the optimistic
`is_ready` update unwraps the absent snapshot and the client panics
(modelled by `none`): these operations implicitly require a room snapshot
to exist at completion time. -/
theorem C10_absent_room_panics (s : State) (h : s.room = none) :
    ready true (CallOutcome.fulfilled (Except.ok ())) s = none ∧
    request_start true (CallOutcome.fulfilled (Except.ok ())) s = none ∧
    cancel_ready true (CallOutcome.fulfilled (Except.ok ())) s = none := by
  refine ⟨?_, ?_, ?_⟩ <;> simp [ready, request_start, cancel_ready, rcall, h]

/-- C10 witness: in the fresh state with no room tracked, all three calls
panic on success. -/
theorem C10_witness :
    ready true (CallOutcome.fulfilled (Except.ok ())) emptyState = none ∧
    request_start true (CallOutcome.fulfilled (Except.ok ())) emptyState = none ∧
    cancel_ready true (CallOutcome.fulfilled (Except.ok ())) emptyState = none :=
  C10_absent_room_panics emptyState rfl

end PhiraMp
